import Mathlib

/-! # Watch registration of the kontroller control plane

A shallow embedding of `registerControllers`
(`src/internal/controller/myapp_manager.go`): the descriptor table it builds
from the configuration, the one-off initial configuration read, and the
registration loop over the table; and of `MyappReconciler.Reconcile`
(`src/internal/controller/myapp_controller.go`) with the client calls it makes.

The collaborators that the function calls but that live outside the file
(`controller.Register`, `setInitialConfig`, the rendering of `%T`) are
parameters of the model, collected in `Env`.
-/

namespace Kontroller

/-! ## Data model -/

/-- The Go struct types whose pointers are used as `objectType` in the
descriptor table, in the order of their first appearance in the source. -/
inductive GoType
  | GatewayClass
  | Gateway
  | HTTPRoute
  | Service
  | Secret
  | EndpointSlice
  | Namespace
  | ReferenceGrant
  | CustomResourceDefinition
  | NginxProxy
  | GRPCRoute
  | ClientSettingsPolicy
  | ObservabilityPolicy
  | UpstreamSettingsPolicy
  | BackendTLSPolicy
  | ConfigMap
  | TLSRoute
  | NginxGateway
  | SnippetsFilter
  deriving DecidableEq, Repr

/-- The type `schema.GroupVersionKind`. -/
structure GroupVersionKind where
  Group : String
  Version : String
  Kind : String
  deriving DecidableEq, Repr

/-- The type `types.NamespacedName`. -/
structure NamespacedName where
  Namespace : String
  Name : String
  deriving DecidableEq, Repr

/-- An object handed to the registration engine (`ngftypes.ObjectType`): a
pointer to a value of some Go struct type together with the group, version
and kind recorded in the value itself (its `TypeMeta`), which is what
`GetObjectKind().GroupVersionKind()` reads. -/
structure ObjectType where
  goType : GoType
  gvk : GroupVersionKind
  deriving DecidableEq, Repr

/-- The composite literal `&T{}`: every field has its zero value, so the
recorded group, version and kind are empty strings. -/
def ObjectType.zero (t : GoType) : ObjectType :=
  { goType := t, gvk := { Group := "", Version := "", Kind := "" } }

/-- The method `SetGroupVersionKind`. -/
def ObjectType.SetGroupVersionKind (o : ObjectType) (gvk : GroupVersionKind) : ObjectType :=
  { o with gvk := gvk }

/-- The method chain `GetObjectKind().GroupVersionKind()`. -/
def ObjectType.GroupVersionKind (o : ObjectType) : GroupVersionKind :=
  o.gvk

/-- The annotation keys named by the table (`graph.BundleVersionAnnotation`). -/
inductive AnnotationKey
  | BundleVersion
  deriving DecidableEq, Repr

/-- The event filters named by the table (`k8spredicate.*` and `predicate.*`),
as syntax. -/
inductive K8sPredicate
  | GenerationChangedPredicate
  | ResourceVersionChangedPredicate
  | LabelChangedPredicate
  | ServiceChangedPredicate
  | GatewayClassPredicate (ControllerName : String)
  | AnnotationPredicate (key : AnnotationKey)
  | And (p q : K8sPredicate)
  deriving DecidableEq, Repr

/-- The field index sets named by the table
(`index.CreateEndpointSliceFieldIndices()`). -/
inductive FieldIndices
  | CreateEndpointSliceFieldIndices
  deriving DecidableEq, Repr

/-- The namespaced-name filters named by the table
(`filter.CreateSingleResourceFilter`). -/
inductive NamespacedNameFilter
  | CreateSingleResourceFilter (nsname : NamespacedName)
  deriving DecidableEq, Repr

/-- The type `controller.Option`: the options a descriptor may carry. -/
inductive ControllerOption
  | WithK8sPredicate (p : K8sPredicate)
  | WithFieldIndices (idx : FieldIndices)
  | WithOnlyMetadata
  | WithNamespacedNameFilter (f : NamespacedNameFilter)
  deriving DecidableEq, Repr

/-- Whether an option is a `WithK8sPredicate` option. -/
def ControllerOption.isK8sPredicate : ControllerOption → Bool
  | .WithK8sPredicate _ => true
  | _ => false

/-- The local type `ctlrCfg` of `registerControllers`: one descriptor of the
table. A field left out of a composite literal has its zero value (the empty
string, the nil slice). -/
structure ctlrCfg where
  name : String := ""
  objectType : ObjectType
  options : List ControllerOption := []
  deriving DecidableEq, Repr

/-- The fields of `config.Config` that `registerControllers` reads.
`ExperimentalFeatures` and `SnippetsFilters` are read by the function although
the struct in `config/config.go` does not declare them. -/
structure Config where
  GatewayCtlrName : String := ""
  ConfigName : String := ""
  GatewayClassName : String := ""
  ExperimentalFeatures : Bool := false
  SnippetsFilters : Bool := false
  deriving DecidableEq, Repr

/-- Go error values: a plain error carrying a message, or the value built by
`fmt.Errorf` with a `%w` verb, which stores the formatted message and the
wrapped error. -/
inductive GoError
  | errorString (msg : String)
  | wrapError (msg : String) (err : GoError)
  deriving DecidableEq, Repr

/-- The method `Error()`. -/
def GoError.Error : GoError → String
  | .errorString msg => msg
  | .wrapError msg _ => msg

/-- The function `errors.Unwrap`. -/
def GoError.Unwrap : GoError → Option GoError
  | .errorString _ => none
  | .wrapError _ err => some err

/-- The call `fmt.Errorf(head ++ ": %w", err)` where `head` is the already
formatted text in front of the colon. -/
def Errorf (head : String) (err : GoError) : GoError :=
  .wrapError (head ++ ": " ++ err.Error) err

/-! ## The descriptor table -/

/-- The constant `apiext.GroupName` of the Kubernetes API extensions package. -/
def apiextGroupName : String := "apiextensions.k8s.io"

/-- The local `crdWithGVK`: a zero `CustomResourceDefinition` on which
`SetGroupVersionKind` has been called. -/
def crdWithGVK : ObjectType :=
  (ObjectType.zero .CustomResourceDefinition).SetGroupVersionKind
    { Group := apiextGroupName, Version := "v1", Kind := "CustomResourceDefinition" }

/-- The initial value of `controllerRegCfgs` (source lines 60-158). -/
def baseRegCfgs (cfg : Config) : List ctlrCfg :=
  [ { objectType := .zero .GatewayClass,
      options := [.WithK8sPredicate
        (.And .GenerationChangedPredicate (.GatewayClassPredicate cfg.GatewayCtlrName))] },
    { objectType := .zero .Gateway,
      options := [.WithK8sPredicate .GenerationChangedPredicate] },
    { objectType := .zero .HTTPRoute,
      options := [.WithK8sPredicate .GenerationChangedPredicate] },
    { objectType := .zero .Service,
      name := "user-service",
      options := [.WithK8sPredicate .ServiceChangedPredicate] },
    { objectType := .zero .Secret,
      options := [.WithK8sPredicate .ResourceVersionChangedPredicate] },
    { objectType := .zero .EndpointSlice,
      options := [.WithK8sPredicate .GenerationChangedPredicate,
                  .WithFieldIndices .CreateEndpointSliceFieldIndices] },
    { objectType := .zero .Namespace,
      options := [.WithK8sPredicate .LabelChangedPredicate] },
    { objectType := .zero .ReferenceGrant,
      options := [.WithK8sPredicate .GenerationChangedPredicate] },
    { objectType := crdWithGVK,
      options := [.WithOnlyMetadata,
                  .WithK8sPredicate (.AnnotationPredicate .BundleVersion)] },
    { objectType := .zero .NginxProxy,
      options := [.WithK8sPredicate .GenerationChangedPredicate] },
    { objectType := .zero .GRPCRoute,
      options := [.WithK8sPredicate .GenerationChangedPredicate] },
    { objectType := .zero .ClientSettingsPolicy,
      options := [.WithK8sPredicate .GenerationChangedPredicate] },
    { objectType := .zero .ObservabilityPolicy,
      options := [.WithK8sPredicate .GenerationChangedPredicate] },
    { objectType := .zero .UpstreamSettingsPolicy,
      options := [.WithK8sPredicate .GenerationChangedPredicate] } ]

/-- The local `gwExpFeatures` (source lines 161-179). -/
def gwExpFeatures : List ctlrCfg :=
  [ { objectType := .zero .BackendTLSPolicy,
      options := [.WithK8sPredicate .GenerationChangedPredicate] },
    { objectType := .zero .ConfigMap },
    { objectType := .zero .TLSRoute,
      options := [.WithK8sPredicate .GenerationChangedPredicate] } ]

/-- The descriptor appended when `cfg.ConfigName != ""` (source lines 185-191). -/
def nginxGatewayRegCfg (controlConfigNSName : NamespacedName) : ctlrCfg :=
  { objectType := .zero .NginxGateway,
    options := [.WithNamespacedNameFilter (.CreateSingleResourceFilter controlConfigNSName),
                .WithK8sPredicate .GenerationChangedPredicate] }

/-- The descriptor appended when `cfg.SnippetsFilters` (source lines 205-210). -/
def snippetsFilterRegCfg : ctlrCfg :=
  { objectType := .zero .SnippetsFilter,
    options := [.WithK8sPredicate .GenerationChangedPredicate] }

/-- The value of `controllerRegCfgs` after the experimental-features block
(source lines 160-181). -/
def withExperimental (cfg : Config) (regCfgs : List ctlrCfg) : List ctlrCfg :=
  if cfg.ExperimentalFeatures then regCfgs ++ gwExpFeatures else regCfgs

/-- The value of `controllerRegCfgs` after the append of the control-resource
block (source lines 183-191). -/
def withControlConfig (cfg : Config) (controlConfigNSName : NamespacedName)
    (regCfgs : List ctlrCfg) : List ctlrCfg :=
  if cfg.ConfigName != "" then regCfgs ++ [nginxGatewayRegCfg controlConfigNSName] else regCfgs

/-- The value of `controllerRegCfgs` after the snippets block (source lines
203-212). -/
def withSnippetsFilters (cfg : Config) (regCfgs : List ctlrCfg) : List ctlrCfg :=
  if cfg.SnippetsFilters then regCfgs ++ [snippetsFilterRegCfg] else regCfgs

/-- The table `controllerRegCfgs` as it stands when the registration loop
starts (source line 214). -/
def controllerRegCfgs (cfg : Config) (controlConfigNSName : NamespacedName) : List ctlrCfg :=
  withSnippetsFilters cfg
    (withControlConfig cfg controlConfigNSName (withExperimental cfg (baseRegCfgs cfg)))

/-- The `name` computed at the head of the loop body (source lines 215-218):
the kind recorded in the object, replaced by the explicit name when that is
not empty. -/
def ctlrCfg.registrationName (regCfg : ctlrCfg) : String :=
  let name := regCfg.objectType.GroupVersionKind.Kind
  if regCfg.name != "" then regCfg.name else name

/-! ## The manager and the registration loop -/

/-- One watch held by the manager: the arguments of the `controller.Register`
call that created it (the context and the event channel are the same for
every call and are left out). -/
structure Watch where
  objectType : ObjectType
  name : String
  options : List ControllerOption
  deriving DecidableEq, Repr

/-- The part of `manager.Manager` that registration touches: the watches
registered with it so far, oldest first. -/
structure Manager where
  watches : List Watch
  deriving DecidableEq, Repr

/-- A call made by `registerControllers` to a collaborator, with its result. -/
inductive Call
  | setInitialConfig (nsname : NamespacedName) (result : Option GoError)
  | Register (w : Watch) (result : Option GoError)
  deriving DecidableEq, Repr

/-- The collaborators of `registerControllers` that are not in the source
tree: how `%T` renders a pointer to each Go type, the result of
`setInitialConfig`, and whether `controller.Register` fails for a given
manager state and arguments. -/
structure Env where
  fmtT : GoType → String
  setInitialConfig : NamespacedName → Option GoError
  registerFails : Manager → Watch → Option GoError

/-- Modelled from the spec: `controller.Register` is called by
`registerControllers` but is not in the source tree. Following section 4.4, a
successful call creates a watch on the object type through the manager, tagged
with the name and carrying the options; a failing call returns the error and
adds no watch. Whether a call fails is decided by `Env.registerFails`. -/
def Register (env : Env) (objectType : ObjectType) (name : String) (mgr : Manager)
    (options : List ControllerOption) : Manager × Option GoError :=
  let w : Watch := { objectType := objectType, name := name, options := options }
  match env.registerFails mgr w with
  | some err => (mgr, some err)
  | none => ({ watches := mgr.watches ++ [w] }, none)

/-- What a run of `registerControllers` leaves behind: the returned error, the
manager, and the collaborator calls made, in order. -/
structure Outcome where
  err : Option GoError
  mgr : Manager
  calls : List Call
  deriving DecidableEq, Repr

/-- The loop of source lines 214-230 over the remaining descriptors, from a
manager state and the calls made so far. -/
def registerLoop (env : Env) : List ctlrCfg → Manager → List Call → Outcome
  | [], mgr, calls => { err := none, mgr := mgr, calls := calls }
  | regCfg :: rest, mgr, calls =>
    let name := regCfg.registrationName
    let w : Watch := { objectType := regCfg.objectType, name := name, options := regCfg.options }
    match Register env regCfg.objectType name mgr regCfg.options with
    | (mgr1, some err) =>
      { err := some (Errorf ("cannot register controller for " ++ env.fmtT regCfg.objectType.goType) err),
        mgr := mgr1,
        calls := calls ++ [Call.Register w (some err)] }
    | (mgr1, none) => registerLoop env rest mgr1 (calls ++ [Call.Register w none])

/-- The function `registerControllers` (source lines 38-232). -/
def registerControllers (env : Env) (cfg : Config) (mgr : Manager)
    (controlConfigNSName : NamespacedName) : Outcome :=
  let regCfgs := withControlConfig cfg controlConfigNSName (withExperimental cfg (baseRegCfgs cfg))
  if cfg.ConfigName != "" then
    match env.setInitialConfig controlConfigNSName with
    | some err =>
      { err := some (Errorf "error setting initial control plane configuration" err),
        mgr := mgr,
        calls := [Call.setInitialConfig controlConfigNSName (some err)] }
    | none =>
      registerLoop env (withSnippetsFilters cfg regCfgs) mgr
        [Call.setInitialConfig controlConfigNSName none]
  else
    registerLoop env (withSnippetsFilters cfg regCfgs) mgr []

/-- The watch that a successful registration of a descriptor creates. -/
def ctlrCfg.toWatch (regCfg : ctlrCfg) : Watch :=
  { objectType := regCfg.objectType, name := regCfg.registrationName, options := regCfg.options }

/-- The call recorded for a successful registration of a descriptor. -/
def ctlrCfg.registered (regCfg : ctlrCfg) : Call :=
  Call.Register regCfg.toWatch none

/-- The arguments of a `controller.Register` call, none for any other call. -/
def Call.registerArg : Call → Option Watch
  | .Register w _ => some w
  | .setInitialConfig _ _ => none

/-- The arguments passed to `controller.Register` in a sequence of calls, in
call order. -/
def registerArgs (calls : List Call) : List Watch :=
  calls.filterMap Call.registerArg

/-- Whether a call is the initial configuration read. -/
def Call.isSetInitialConfig : Call → Bool
  | .setInitialConfig _ _ => true
  | .Register _ _ => false

/-- The calls made before the loop starts: the initial configuration read when
a configuration name is set, nothing otherwise. -/
def initialCalls (env : Env) (cfg : Config) (controlConfigNSName : NamespacedName) : List Call :=
  if cfg.ConfigName != "" then
    [Call.setInitialConfig controlConfigNSName (env.setInitialConfig controlConfigNSName)]
  else []

/-! ## Sample environments -/

/-- A sample environment: the initial read succeeds and `controller.Register`
rejects exactly the calls whose name is `failing`. -/
def envRejecting (failing : String) : Env :=
  { fmtT := fun _ => "*T",
    setInitialConfig := fun _ => none,
    registerFails := fun _ w =>
      if w.name = failing then some (.errorString "rejected") else none }

/-- A sample environment: the initial read fails and every call of
`controller.Register` would succeed. -/
def envInitFailing : Env :=
  { fmtT := fun _ => "*T",
    setInitialConfig := fun _ => some (.errorString "unreachable"),
    registerFails := fun _ _ => none }

/-- A sample namespaced name for the control resource. -/
def sampleNSName : NamespacedName := { Namespace := "nginx-gateway", Name := "config" }

/-! ## The reconciler -/

/-- The Go types of the objects that `Reconcile` reads with `Get`
(`gatewayv1.HTTPRoute`, `corev1.Service`, `webappv1.Myapp`). -/
inductive ClientObject
  | HTTPRoute
  | Service
  | Myapp
  deriving DecidableEq, Repr

/-- The Go types of the lists that `Reconcile` reads with `List`
(`gatewayv1.HTTPRouteList`, `corev1.ServiceList`). -/
inductive ClientObjectList
  | HTTPRouteList
  | ServiceList
  deriving DecidableEq, Repr

/-- The type `ctrl.Request`, which embeds `types.NamespacedName`. -/
structure Request where
  NamespacedName : NamespacedName
  deriving DecidableEq, Repr

/-- The promoted field `req.Namespace`. -/
def Request.Namespace (req : Request) : String :=
  req.NamespacedName.Namespace

/-- The type `ctrl.Result`; the literal `ctrl.Result{}` is its zero value. -/
structure Result where
  Requeue : Bool := false
  RequeueAfter : Int := 0
  deriving DecidableEq, Repr

/-- The calls of the interface `client.Client` that `MyappReconciler` embeds:
the two reads and the writes. -/
inductive ClientCall
  | Get (key : NamespacedName) (obj : ClientObject)
  | List (list : ClientObjectList) (inNamespace : String)
  | Create (key : NamespacedName) (obj : ClientObject)
  | Delete (key : NamespacedName) (obj : ClientObject)
  | Update (key : NamespacedName) (obj : ClientObject)
  | Patch (key : NamespacedName) (obj : ClientObject)
  | DeleteAllOf (obj : ClientObject) (inNamespace : String)
  | StatusUpdate (key : NamespacedName) (obj : ClientObject)
  | StatusPatch (key : NamespacedName) (obj : ClientObject)
  deriving DecidableEq, Repr

/-- Whether a call is a `Get`. -/
def ClientCall.isGet : ClientCall → Bool
  | .Get _ _ => true
  | _ => false

/-- Whether a call is a `List`. -/
def ClientCall.isList : ClientCall → Bool
  | .List _ _ => true
  | _ => false

/-- Modelled from the spec: the effect of a client call on the object store of
the cluster, which is not in the source tree. Following section 6, `Get` and
`List` only return snapshots and leave the store as it is; what a write does
to the store is given by `write`. -/
def ClientCall.effect {Store : Type} (write : ClientCall → Store → Store) :
    ClientCall → Store → Store
  | .Get _ _, store => store
  | .List _ _, store => store
  | call, store => write call store

/-- The type `MyappReconciler`, reduced to the two methods of the embedded
`client.Client` that `Reconcile` calls: each gives the error returned for the
given arguments, none for nil. The store is not changed by these calls and each
of them is made at most once in a run, so a function of the arguments covers
every behaviour of a client during one run. -/
structure MyappReconciler where
  Get : NamespacedName → ClientObject → Option GoError
  List : ClientObjectList → String → Option GoError

/-- The function `client.IgnoreNotFound` of controller-runtime: nil for nil and
for an error that `apierrors.IsNotFound` accepts, the error itself otherwise. -/
def IgnoreNotFound (IsNotFound : GoError → Bool) : Option GoError → Option GoError
  | none => none
  | some err => if IsNotFound err then none else some err

/-- What a run of `Reconcile` leaves behind: the returned result and error, and
the client calls made, in order, each with the error it returned. -/
structure Reconciled where
  result : Result
  err : Option GoError
  calls : List (ClientCall × Option GoError)
  deriving DecidableEq, Repr

/-- The method `MyappReconciler.Reconcile` (source lines 53-146). The logger
calls are left out; `IsNotFound` stands for `apierrors.IsNotFound`. -/
def MyappReconciler.Reconcile (r : MyappReconciler) (IsNotFound : GoError → Bool)
    (req : Request) : Reconciled :=
  let getHTTPRoute := r.Get req.NamespacedName .HTTPRoute
  let c1 := (ClientCall.Get req.NamespacedName .HTTPRoute, getHTTPRoute)
  match getHTTPRoute with
  | none =>
    let c2 := (ClientCall.List .HTTPRouteList req.Namespace, r.List .HTTPRouteList req.Namespace)
    { result := {}, err := none, calls := [c1, c2] }
  | some _ =>
    let c2 := (ClientCall.List .HTTPRouteList req.Namespace, r.List .HTTPRouteList req.Namespace)
    let getService := r.Get req.NamespacedName .Service
    let c3 := (ClientCall.Get req.NamespacedName .Service, getService)
    match getService with
    | none =>
      let c4 := (ClientCall.List .ServiceList req.Namespace, r.List .ServiceList req.Namespace)
      { result := {}, err := none, calls := [c1, c2, c3, c4] }
    | some _ =>
      let c4 := (ClientCall.List .ServiceList req.Namespace, r.List .ServiceList req.Namespace)
      let getMyapp := r.Get req.NamespacedName .Myapp
      let c5 := (ClientCall.Get req.NamespacedName .Myapp, getMyapp)
      match getMyapp with
      | some err =>
        if IgnoreNotFound IsNotFound (some err) = none then
          { result := {}, err := none, calls := [c1, c2, c3, c4, c5] }
        else
          { result := {}, err := some err, calls := [c1, c2, c3, c4, c5] }
      | none => { result := {}, err := none, calls := [c1, c2, c3, c4, c5] }

/-! ## The generation-changed filter -/

/-- The view of a resource that a filter sees (section 4.1 of the spec):
generation, resource version, labels, annotations and namespaced name. -/
structure Snapshot where
  Generation : Int
  ResourceVersion : String
  Labels : List (String × String)
  Annotations : List (String × String)
  NamespacedName : NamespacedName
  deriving DecidableEq, Repr

/-- Modelled from the spec: `k8spredicate.GenerationChangedPredicate` is named
by the descriptors but its code is not in the source tree. Following section
4.1, it is true when the previous snapshot is absent and otherwise exactly when
the generation of the current snapshot differs from that of the previous one. -/
def GenerationChanged (previous : Option Snapshot) (current : Snapshot) : Bool :=
  match previous with
  | none => true
  | some p => current.Generation != p.Generation

/-- A sample reconciler over a cluster in which the Gateway API types are not
registered, a Service exists at every key and listing Services fails. -/
def sampleReconciler : MyappReconciler :=
  { Get := fun _ obj =>
      match obj with
      | .HTTPRoute => some (.errorString "no kind is registered")
      | .Service => none
      | .Myapp => some (.errorString "not found"),
    List := fun _ _ => some (.errorString "list failed") }

/-- A sample reconciler over a cluster in which no read succeeds and the Myapp
read fails with the given error. -/
def failingReconciler (myappErr : GoError) : MyappReconciler :=
  { Get := fun _ obj =>
      match obj with
      | .HTTPRoute => some (.errorString "no kind is registered")
      | .Service => some (.errorString "not found")
      | .Myapp => some myappErr,
    List := fun _ _ => some (.errorString "list failed") }

/-- A sample test for not-found errors: by message. -/
def sampleIsNotFound (err : GoError) : Bool :=
  err.Error == "not found"

/-- A sample request. -/
def sampleRequest : Request :=
  { NamespacedName := { Namespace := "default", Name := "test-resource" } }

/-! ## The registration loop, characterised -/

/-- The loop registers the descriptors in order up to some position `k`: the
`k` descriptors before it are registered with the manager, and either `k` is
the end of the table and the loop returns nil, or the descriptor at `k` is the
first whose registration fails and the loop returns the wrapped error right
after that call. -/
theorem registerLoop_spec (env : Env) (tbl : List ctlrCfg) :
    ∀ (mgr : Manager) (calls : List Call), ∃ k, k ≤ tbl.length ∧
      (registerLoop env tbl mgr calls).mgr.watches
        = mgr.watches ++ (tbl.take k).map ctlrCfg.toWatch ∧
      (∀ i c, i < k → tbl[i]? = some c →
        env.registerFails ⟨mgr.watches ++ (tbl.take i).map ctlrCfg.toWatch⟩ c.toWatch = none) ∧
      ((k = tbl.length ∧ (registerLoop env tbl mgr calls).err = none ∧
          (registerLoop env tbl mgr calls).calls = calls ++ tbl.map ctlrCfg.registered) ∨
       (∃ c e, tbl[k]? = some c ∧
          env.registerFails ⟨mgr.watches ++ (tbl.take k).map ctlrCfg.toWatch⟩ c.toWatch = some e ∧
          (registerLoop env tbl mgr calls).err
            = some (Errorf ("cannot register controller for " ++ env.fmtT c.objectType.goType) e) ∧
          (registerLoop env tbl mgr calls).calls
            = calls ++ (tbl.take k).map ctlrCfg.registered ++ [Call.Register c.toWatch (some e)])) := by
  induction tbl with
  | nil =>
    intro mgr calls
    exact ⟨0, by simp [registerLoop]⟩
  | cons regCfg rest ih =>
    intro mgr calls
    cases hf : env.registerFails mgr regCfg.toWatch with
    | some e =>
      refine ⟨0, by simp, ?_, ?_, Or.inr ⟨regCfg, e, ?_, ?_, ?_, ?_⟩⟩
      · have hf2 : env.registerFails mgr
            { objectType := regCfg.objectType, name := regCfg.registrationName,
              options := regCfg.options } = some e := hf
        simp [registerLoop, Register, hf2]
      · intro i c hi
        exact absurd hi (Nat.not_lt_zero i)
      · simp
      · simpa using hf
      · have hf2 : env.registerFails mgr
            { objectType := regCfg.objectType, name := regCfg.registrationName,
              options := regCfg.options } = some e := hf
        simp [registerLoop, Register, hf2]
      · have hf2 : env.registerFails mgr
            { objectType := regCfg.objectType, name := regCfg.registrationName,
              options := regCfg.options } = some e := hf
        simp [registerLoop, Register, hf2, ctlrCfg.toWatch]
    | none =>
      have hf2 : env.registerFails mgr
          { objectType := regCfg.objectType, name := regCfg.registrationName,
            options := regCfg.options } = none := hf
      have hstep : registerLoop env (regCfg :: rest) mgr calls
          = registerLoop env rest ⟨mgr.watches ++ [regCfg.toWatch]⟩
              (calls ++ [regCfg.registered]) := by
        simp [registerLoop, Register, hf2, ctlrCfg.toWatch, ctlrCfg.registered]
      obtain ⟨k, hk, hw, hok, hend⟩ := ih ⟨mgr.watches ++ [regCfg.toWatch]⟩
        (calls ++ [regCfg.registered])
      refine ⟨k + 1, by simpa using hk, ?_, ?_, ?_⟩
      · rw [hstep, hw]; simp
      · intro i c hi hc
        cases i with
        | zero =>
          simp at hc
          subst hc
          simpa using hf
        | succ j =>
          have := hok j c (by omega) (by simpa using hc)
          simpa using this
      · rw [hstep]
        rcases hend with ⟨h1, h2, h3⟩ | ⟨c, e, h1, h2, h3, h4⟩
        · exact Or.inl ⟨by simp [h1], h2, by rw [h3]; simp⟩
        · refine Or.inr ⟨c, e, by simpa using h1, by simpa using h2, h3, by rw [h4]; simp⟩

/-- When the descriptor at position `k` is the first whose registration fails,
the loop returns the wrapped error, leaves the `k` earlier descriptors
registered and makes no call after the failing one. -/
theorem registerLoop_first_failure (env : Env) (tbl : List ctlrCfg) (mgr : Manager)
    (calls : List Call) (k : Nat) (c : ctlrCfg) (e : GoError)
    (hk : tbl[k]? = some c)
    (hok : ∀ i d, i < k → tbl[i]? = some d →
      env.registerFails ⟨mgr.watches ++ (tbl.take i).map ctlrCfg.toWatch⟩ d.toWatch = none)
    (hfail : env.registerFails ⟨mgr.watches ++ (tbl.take k).map ctlrCfg.toWatch⟩ c.toWatch
      = some e) :
    (registerLoop env tbl mgr calls).err
        = some (Errorf ("cannot register controller for " ++ env.fmtT c.objectType.goType) e) ∧
      (registerLoop env tbl mgr calls).mgr.watches
        = mgr.watches ++ (tbl.take k).map ctlrCfg.toWatch ∧
      (registerLoop env tbl mgr calls).calls
        = calls ++ (tbl.take k).map ctlrCfg.registered ++ [Call.Register c.toWatch (some e)] := by
  have hklt : k < tbl.length := by
    rcases Nat.lt_or_ge k tbl.length with h | h
    · exact h
    · rw [List.getElem?_eq_none h] at hk
      cases hk
  obtain ⟨j, hj, hw, hjok, hend⟩ := registerLoop_spec env tbl mgr calls
  have hjk : j = k := by
    rcases Nat.lt_trichotomy j k with hlt | heq | hgt
    · rcases hend with ⟨h1, _, _⟩ | ⟨d, e2, h1, h2, _, _⟩
      · omega
      · have := hok j d hlt h1
        rw [this] at h2
        cases h2
    · exact heq
    · have := hjok k c hgt hk
      rw [this] at hfail
      cases hfail
  subst hjk
  rcases hend with ⟨h1, _, _⟩ | ⟨d, e2, h1, h2, h3, h4⟩
  · omega
  · rw [hk] at h1
    cases h1
    rw [hfail] at h2
    cases h2
    exact ⟨h3, hw, h4⟩

/-- When no registration fails, the loop returns nil with every descriptor of
the table registered, in table order. -/
theorem registerLoop_no_failure (env : Env) (tbl : List ctlrCfg) (mgr : Manager)
    (calls : List Call)
    (hok : ∀ i d, tbl[i]? = some d →
      env.registerFails ⟨mgr.watches ++ (tbl.take i).map ctlrCfg.toWatch⟩ d.toWatch = none) :
    (registerLoop env tbl mgr calls).err = none ∧
      (registerLoop env tbl mgr calls).mgr.watches = mgr.watches ++ tbl.map ctlrCfg.toWatch ∧
      (registerLoop env tbl mgr calls).calls = calls ++ tbl.map ctlrCfg.registered := by
  obtain ⟨j, hj, hw, _, hend⟩ := registerLoop_spec env tbl mgr calls
  rcases hend with ⟨h1, h2, h3⟩ | ⟨d, e2, h1, h2, _, _⟩
  · subst h1
    exact ⟨h2, by simpa using hw, h3⟩
  · have := hok j d h1
    rw [this] at h2
    cases h2

/-- When the initial read is skipped or succeeds, `registerControllers` is the
loop over the full table. -/
theorem registerControllers_eq_loop (env : Env) (cfg : Config) (mgr : Manager)
    (ns : NamespacedName) (hinit : cfg.ConfigName = "" ∨ env.setInitialConfig ns = none) :
    registerControllers env cfg mgr ns
      = registerLoop env (controllerRegCfgs cfg ns) mgr (initialCalls env cfg ns) := by
  unfold registerControllers controllerRegCfgs initialCalls
  by_cases hc : cfg.ConfigName = ""
  · simp [hc]
  · have hs : env.setInitialConfig ns = none := by
      rcases hinit with h | h
      · exact absurd h hc
      · exact h
    simp [hc, hs]

/-- When the initial read fails, `registerControllers` returns right after it. -/
theorem registerControllers_init_failure (env : Env) (cfg : Config) (mgr : Manager)
    (ns : NamespacedName) (e : GoError) (hc : cfg.ConfigName ≠ "")
    (hs : env.setInitialConfig ns = some e) :
    registerControllers env cfg mgr ns
      = { err := some (Errorf "error setting initial control plane configuration" e),
          mgr := mgr,
          calls := [Call.setInitialConfig ns (some e)] } := by
  unfold registerControllers
  simp [hc, hs]

/-- No `controller.Register` call is made before the loop. -/
theorem register_not_mem_initialCalls (env : Env) (cfg : Config) (ns : NamespacedName)
    (w : Watch) (r : Option GoError) : Call.Register w r ∉ initialCalls env cfg ns := by
  unfold initialCalls
  split <;> simp

/-- The calls before the loop pass nothing to `controller.Register`. -/
theorem registerArgs_initialCalls (env : Env) (cfg : Config) (ns : NamespacedName) :
    registerArgs (initialCalls env cfg ns) = [] := by
  unfold initialCalls registerArgs
  split <;> simp [Call.registerArg]

/-- The arguments of the calls recorded for successful registrations. -/
theorem registerArgs_map_registered (l : List ctlrCfg) :
    registerArgs (l.map ctlrCfg.registered) = l.map ctlrCfg.toWatch := by
  induction l with
  | nil => rfl
  | cons d rest ih =>
    simp only [registerArgs, List.map_cons, List.filterMap_cons, ctlrCfg.registered,
      Call.registerArg] at ih ⊢
    rw [ih]

/-- The arguments of a concatenation of call sequences. -/
theorem registerArgs_append (l1 l2 : List Call) :
    registerArgs (l1 ++ l2) = registerArgs l1 ++ registerArgs l2 := by
  simp [registerArgs, List.filterMap_append]

/-- A recorded successful registration is that of a descriptor of the list. -/
theorem register_mem_map_registered (l : List ctlrCfg) (w : Watch) (r : Option GoError)
    (h : Call.Register w r ∈ l.map ctlrCfg.registered) : r = none ∧ ∃ d ∈ l, d.toWatch = w := by
  rw [List.mem_map] at h
  obtain ⟨d, hd, heq⟩ := h
  simp only [ctlrCfg.registered, Call.Register.injEq] at heq
  exact ⟨heq.2.symm, d, hd, heq.1⟩

/-- The table as one concatenation: the base descriptors, then the
experimental ones, then the control-resource one, then the snippets one. -/
theorem controllerRegCfgs_eq (cfg : Config) (ns : NamespacedName) :
    controllerRegCfgs cfg ns
      = baseRegCfgs cfg ++ (if cfg.ExperimentalFeatures = true then gwExpFeatures else [])
          ++ (if cfg.ConfigName ≠ "" then [nginxGatewayRegCfg ns] else [])
          ++ (if cfg.SnippetsFilters = true then [snippetsFilterRegCfg] else []) := by
  unfold controllerRegCfgs withSnippetsFilters withControlConfig withExperimental
  by_cases h1 : cfg.ExperimentalFeatures = true <;> by_cases h2 : cfg.ConfigName = "" <;>
    by_cases h3 : cfg.SnippetsFilters = true <;> simp [h1, h2, h3]

/-- The Go types of the objects of the table, in table order. -/
theorem controllerRegCfgs_goTypes (cfg : Config) (ns : NamespacedName) :
    (controllerRegCfgs cfg ns).map (fun d => d.objectType.goType)
      = [.GatewayClass, .Gateway, .HTTPRoute, .Service, .Secret, .EndpointSlice, .Namespace,
          .ReferenceGrant, .CustomResourceDefinition, .NginxProxy, .GRPCRoute,
          .ClientSettingsPolicy, .ObservabilityPolicy, .UpstreamSettingsPolicy]
          ++ (if cfg.ExperimentalFeatures = true then [.BackendTLSPolicy, .ConfigMap, .TLSRoute]
              else [])
          ++ (if cfg.ConfigName ≠ "" then [.NginxGateway] else [])
          ++ (if cfg.SnippetsFilters = true then [.SnippetsFilter] else []) := by
  rw [controllerRegCfgs_eq]
  by_cases h1 : cfg.ExperimentalFeatures = true <;> by_cases h2 : cfg.ConfigName = "" <;>
    by_cases h3 : cfg.SnippetsFilters = true <;>
    simp [h1, h2, h3, baseRegCfgs, gwExpFeatures, nginxGatewayRegCfg, snippetsFilterRegCfg,
      ObjectType.zero, crdWithGVK, ObjectType.SetGroupVersionKind]

/-- The Go types of the objects of the table are pairwise distinct. -/
theorem controllerRegCfgs_goTypes_nodup (cfg : Config) (ns : NamespacedName) :
    ((controllerRegCfgs cfg ns).map (fun d => d.objectType.goType)).Nodup := by
  rw [controllerRegCfgs_goTypes]
  by_cases h1 : cfg.ExperimentalFeatures = true <;> by_cases h2 : cfg.ConfigName = "" <;>
    by_cases h3 : cfg.SnippetsFilters = true <;>
    simp only [h1, h2, h3, ne_eq, not_true_eq_false, not_false_eq_true, if_true, if_false,
      Bool.false_eq_true] <;>
    decide

/-- Every `controller.Register` call of a run is for a descriptor of the table,
with the arguments computed from it. -/
theorem register_mem_calls (env : Env) (cfg : Config) (mgr : Manager) (ns : NamespacedName)
    (w : Watch) (r : Option GoError)
    (hmem : Call.Register w r ∈ (registerControllers env cfg mgr ns).calls) :
    ∃ d ∈ controllerRegCfgs cfg ns, d.toWatch = w := by
  by_cases hinit : cfg.ConfigName = "" ∨ env.setInitialConfig ns = none
  · rw [registerControllers_eq_loop env cfg mgr ns hinit] at hmem
    obtain ⟨k, _, _, _, hend⟩ :=
      registerLoop_spec env (controllerRegCfgs cfg ns) mgr (initialCalls env cfg ns)
    rcases hend with ⟨_, _, h3⟩ | ⟨d, e, h1, _, _, h4⟩
    · rw [h3, List.mem_append] at hmem
      rcases hmem with hmem | hmem
      · exact absurd hmem (register_not_mem_initialCalls env cfg ns w r)
      · exact (register_mem_map_registered _ w r hmem).2
    · rw [h4, List.mem_append, List.mem_append] at hmem
      rcases hmem with (hmem | hmem) | hmem
      · exact absurd hmem (register_not_mem_initialCalls env cfg ns w r)
      · obtain ⟨d2, hd2, hw⟩ := (register_mem_map_registered _ w r hmem).2
        exact ⟨d2, List.mem_of_mem_take hd2, hw⟩
      · simp only [List.mem_singleton, Call.Register.injEq] at hmem
        exact ⟨d, List.getElem?_mem h1, hmem.1.symm⟩
  · have hc : cfg.ConfigName ≠ "" := fun h => hinit (Or.inl h)
    cases hs : env.setInitialConfig ns with
    | none => exact absurd (Or.inr hs) hinit
    | some e0 =>
      rw [registerControllers_init_failure env cfg mgr ns e0 hc hs] at hmem
      simp at hmem

/-- The loop makes no initial configuration read: the reads among its calls are
those among the calls made before it. -/
theorem registerLoop_calls_filter (env : Env) (tbl : List ctlrCfg) :
    ∀ (mgr : Manager) (calls : List Call),
      (registerLoop env tbl mgr calls).calls.filter Call.isSetInitialConfig
        = calls.filter Call.isSetInitialConfig ∧
      ∃ more, (registerLoop env tbl mgr calls).calls = calls ++ more := by
  intro mgr calls
  obtain ⟨k, _, _, _, hend⟩ := registerLoop_spec env tbl mgr calls
  have hreg : ∀ l : List ctlrCfg, (l.map ctlrCfg.registered).filter Call.isSetInitialConfig = [] := by
    intro l
    induction l with
    | nil => rfl
    | cons d rest ih => simp [ctlrCfg.registered, Call.isSetInitialConfig]
  rcases hend with ⟨_, _, h3⟩ | ⟨d, e, _, _, _, h4⟩
  · rw [h3]
    exact ⟨by rw [List.filter_append, hreg, List.append_nil], _, rfl⟩
  · rw [h4]
    refine ⟨?_, _, List.append_assoc _ _ _⟩
    rw [List.filter_append, List.filter_append, hreg]
    simp [Call.isSetInitialConfig]

/-! ## C1: a failed registration and the watches registered before it -/

/-- C1, as stated, fails: with the default configuration and a manager that
rejects the fourth descriptor of the table (the Service watch named
user-service), `registerControllers` returns an error while the watches of the
three descriptors registered before it are still registered with the manager. -/
theorem registerControllers_keeps_earlier_watches_counterexample :
    (controllerRegCfgs {} sampleNSName)[3]?.map ctlrCfg.registrationName = some "user-service" ∧
    (registerControllers (envRejecting "user-service") {} ⟨[]⟩ sampleNSName).err ≠ none ∧
    (registerControllers (envRejecting "user-service") {} ⟨[]⟩ sampleNSName).mgr.watches.map
      (fun w => w.objectType.goType) = [.GatewayClass, .Gateway, .HTTPRoute] := by
  decide

/-- C1, amended: when the initial read is skipped or succeeds and the
descriptor at position `k` of the table is the first whose registration fails,
`registerControllers` returns the wrapped error and makes no further call, so
no descriptor after position `k` is registered; the `k` descriptors before it
stay registered with the manager, on top of the watches it already had,
because nothing is rolled back. -/
theorem registerControllers_failure_no_rollback (env : Env) (cfg : Config) (mgr : Manager)
    (ns : NamespacedName) (k : Nat) (c : ctlrCfg) (e : GoError)
    (hinit : cfg.ConfigName = "" ∨ env.setInitialConfig ns = none)
    (hk : (controllerRegCfgs cfg ns)[k]? = some c)
    (hok : ∀ i d, i < k → (controllerRegCfgs cfg ns)[i]? = some d →
      env.registerFails
        ⟨mgr.watches ++ ((controllerRegCfgs cfg ns).take i).map ctlrCfg.toWatch⟩ d.toWatch = none)
    (hfail : env.registerFails
        ⟨mgr.watches ++ ((controllerRegCfgs cfg ns).take k).map ctlrCfg.toWatch⟩ c.toWatch
      = some e) :
    (registerControllers env cfg mgr ns).err
        = some (Errorf ("cannot register controller for " ++ env.fmtT c.objectType.goType) e) ∧
      (registerControllers env cfg mgr ns).mgr.watches
        = mgr.watches ++ ((controllerRegCfgs cfg ns).take k).map ctlrCfg.toWatch ∧
      (registerControllers env cfg mgr ns).calls
        = initialCalls env cfg ns ++ ((controllerRegCfgs cfg ns).take k).map ctlrCfg.registered
            ++ [Call.Register c.toWatch (some e)] := by
  rw [registerControllers_eq_loop env cfg mgr ns hinit]
  exact registerLoop_first_failure env _ mgr _ k c e hk hok hfail

/-- C1, amended, at a concrete input: the default configuration with a manager
that rejects the Service watch at position 3. -/
theorem registerControllers_failure_no_rollback_witness :
    (registerControllers (envRejecting "user-service") {} ⟨[]⟩ sampleNSName).err
        = some (Errorf ("cannot register controller for " ++ "*T") (.errorString "rejected")) ∧
      (registerControllers (envRejecting "user-service") {} ⟨[]⟩ sampleNSName).mgr.watches
        = [] ++ ((controllerRegCfgs {} sampleNSName).take 3).map ctlrCfg.toWatch ∧
      (registerControllers (envRejecting "user-service") {} ⟨[]⟩ sampleNSName).calls
        = initialCalls (envRejecting "user-service") {} sampleNSName
            ++ ((controllerRegCfgs {} sampleNSName).take 3).map ctlrCfg.registered
            ++ [Call.Register
                  (ctlrCfg.toWatch { objectType := .zero .Service, name := "user-service",
                                     options := [.WithK8sPredicate .ServiceChangedPredicate] })
                  (some (.errorString "rejected"))] :=
  registerControllers_failure_no_rollback (envRejecting "user-service") {} ⟨[]⟩ sampleNSName 3
    { objectType := .zero .Service, name := "user-service",
      options := [.WithK8sPredicate .ServiceChangedPredicate] }
    (.errorString "rejected") (Or.inl rfl) (by decide)
    (by
      intro i d hi hd
      have hmem : d ∈ (controllerRegCfgs {} sampleNSName).take 3 :=
        List.getElem?_mem ((List.getElem?_take_of_lt hi).trans hd)
      have hall : ∀ d2 ∈ (controllerRegCfgs {} sampleNSName).take 3,
          d2.toWatch.name ≠ "user-service" := by decide
      simp [envRejecting, hall d hmem])
    (by decide)

/-! ## C2: the order of the registration calls -/

/-- C2, as stated, fails: with a configuration name set and an initial read
that fails, no descriptor is passed to `controller.Register` although none of
the fifteen registrations of the table would fail. -/
theorem registerControllers_register_order_counterexample :
    registerArgs (registerControllers envInitFailing { ConfigName := "config" } ⟨[]⟩
      sampleNSName).calls = [] ∧
    (controllerRegCfgs { ConfigName := "config" } sampleNSName).length = 15 ∧
    (registerLoop envInitFailing (controllerRegCfgs { ConfigName := "config" } sampleNSName)
      ⟨[]⟩ []).err = none := by
  decide

/-- C2, amended: let `k` be the position of the first descriptor of the table
whose registration fails (the length of the table when none fails). When a
configuration name is set and the initial read fails, nothing is passed to
`controller.Register`; otherwise the descriptors passed to it are exactly the
first `k + 1` descriptors of the table, in table order, so none after a
failing one is registered. -/
theorem registerControllers_register_order (env : Env) (cfg : Config) (mgr : Manager)
    (ns : NamespacedName) :
    ∃ k, k ≤ (controllerRegCfgs cfg ns).length ∧
      (∀ i d, i < k → (controllerRegCfgs cfg ns)[i]? = some d →
        env.registerFails
          ⟨mgr.watches ++ ((controllerRegCfgs cfg ns).take i).map ctlrCfg.toWatch⟩ d.toWatch
          = none) ∧
      (k < (controllerRegCfgs cfg ns).length → ∃ d e, (controllerRegCfgs cfg ns)[k]? = some d ∧
        env.registerFails
          ⟨mgr.watches ++ ((controllerRegCfgs cfg ns).take k).map ctlrCfg.toWatch⟩ d.toWatch
          = some e) ∧
      registerArgs (registerControllers env cfg mgr ns).calls
        = if cfg.ConfigName ≠ "" ∧ (env.setInitialConfig ns).isSome = true then []
          else ((controllerRegCfgs cfg ns).take (k + 1)).map ctlrCfg.toWatch := by
  obtain ⟨k, hk, _, hok, hend⟩ :=
    registerLoop_spec env (controllerRegCfgs cfg ns) mgr (initialCalls env cfg ns)
  refine ⟨k, hk, hok, ?_, ?_⟩
  · intro hlt
    rcases hend with ⟨h1, _, _⟩ | ⟨d, e, h1, h2, _, _⟩
    · omega
    · exact ⟨d, e, h1, h2⟩
  · by_cases hfailed : cfg.ConfigName ≠ "" ∧ (env.setInitialConfig ns).isSome = true
    · obtain ⟨hc, hs⟩ := hfailed
      obtain ⟨e, he⟩ := Option.isSome_iff_exists.mp hs
      rw [registerControllers_init_failure env cfg mgr ns e hc he]
      simp [hc, he, registerArgs, Call.registerArg]
    · have hinit : cfg.ConfigName = "" ∨ env.setInitialConfig ns = none := by
        by_cases hc : cfg.ConfigName = ""
        · exact Or.inl hc
        · right
          cases hs : env.setInitialConfig ns with
          | none => rfl
          | some e => exact absurd ⟨hc, by simp [hs]⟩ hfailed
      rw [registerControllers_eq_loop env cfg mgr ns hinit, if_neg hfailed]
      rcases hend with ⟨h1, _, h3⟩ | ⟨d, e, h1, _, _, h4⟩
      · rw [h3, registerArgs_append, registerArgs_initialCalls, registerArgs_map_registered, h1]
        simp
      · rw [h4, registerArgs_append, registerArgs_append, registerArgs_initialCalls,
          registerArgs_map_registered, List.take_succ, h1]
        simp [registerArgs, Call.registerArg]

/-! ## C3: the returned error -/

/-- C3: `registerControllers` returns nil exactly when the initial read is
skipped or succeeds and every `controller.Register` call it makes succeeds;
and when a `controller.Register` call for a descriptor fails with `e`, the
returned error unwraps to `e` and its message is the fixed text followed by
the rendering of the Go type of the object of the descriptor, a colon and the
message of `e`. The Go types of the table are pairwise distinct, so the
message singles out the failing descriptor. -/
theorem registerControllers_error_result (env : Env) (cfg : Config) (mgr : Manager)
    (ns : NamespacedName) :
    ((registerControllers env cfg mgr ns).err = none ↔
        (cfg.ConfigName = "" ∨ env.setInitialConfig ns = none) ∧
          ∀ w r, Call.Register w r ∈ (registerControllers env cfg mgr ns).calls → r = none) ∧
      (∀ w e, Call.Register w (some e) ∈ (registerControllers env cfg mgr ns).calls →
        (∃ d ∈ controllerRegCfgs cfg ns, d.toWatch = w) ∧
        ∃ err, (registerControllers env cfg mgr ns).err = some err ∧ err.Unwrap = some e ∧
          err.Error
            = "cannot register controller for " ++ env.fmtT w.objectType.goType ++ ": "
                ++ e.Error) ∧
      ((controllerRegCfgs cfg ns).map (fun d => d.objectType.goType)).Nodup := by
  refine ⟨?_, ?_, controllerRegCfgs_goTypes_nodup cfg ns⟩
  · by_cases hinit : cfg.ConfigName = "" ∨ env.setInitialConfig ns = none
    · rw [registerControllers_eq_loop env cfg mgr ns hinit]
      obtain ⟨k, _, _, _, hend⟩ :=
        registerLoop_spec env (controllerRegCfgs cfg ns) mgr (initialCalls env cfg ns)
      rcases hend with ⟨_, h2, h3⟩ | ⟨d, e, _, _, h3, h4⟩
      · refine ⟨fun _ => ⟨hinit, ?_⟩, fun _ => h2⟩
        intro w r hmem
        rw [h3, List.mem_append] at hmem
        rcases hmem with hmem | hmem
        · exact absurd hmem (register_not_mem_initialCalls env cfg ns w r)
        · exact (register_mem_map_registered _ w r hmem).1
      · constructor
        · intro h
          rw [h3] at h
          cases h
        · intro h
          have := h.2 d.toWatch (some e) (by rw [h4]; simp)
          cases this
    · have hc : cfg.ConfigName ≠ "" := fun h => hinit (Or.inl h)
      cases hs : env.setInitialConfig ns with
      | none => exact absurd (Or.inr hs) hinit
      | some e0 =>
        rw [registerControllers_init_failure env cfg mgr ns e0 hc hs]
        constructor
        · intro h
          cases h
        · intro h
          rcases h.1 with h1 | h1
          · exact absurd h1 hc
          · cases h1
  · intro w e hmem
    by_cases hinit : cfg.ConfigName = "" ∨ env.setInitialConfig ns = none
    · rw [registerControllers_eq_loop env cfg mgr ns hinit] at hmem ⊢
      obtain ⟨k, _, _, _, hend⟩ :=
        registerLoop_spec env (controllerRegCfgs cfg ns) mgr (initialCalls env cfg ns)
      rcases hend with ⟨_, _, h3⟩ | ⟨d, e2, h1, _, h3, h4⟩
      · rw [h3, List.mem_append] at hmem
        rcases hmem with hmem | hmem
        · exact absurd hmem (register_not_mem_initialCalls env cfg ns w _)
        · have := (register_mem_map_registered _ w _ hmem).1
          cases this
      · rw [h4, List.mem_append, List.mem_append] at hmem
        rcases hmem with (hmem | hmem) | hmem
        · exact absurd hmem (register_not_mem_initialCalls env cfg ns w _)
        · have := (register_mem_map_registered _ w _ hmem).1
          cases this
        · simp only [List.mem_singleton, Call.Register.injEq, Option.some.injEq] at hmem
          obtain ⟨hw, he⟩ := hmem
          subst hw he
          refine ⟨⟨d, List.getElem?_mem h1, rfl⟩, _, h3, rfl, rfl⟩
    · have hc : cfg.ConfigName ≠ "" := fun h => hinit (Or.inl h)
      cases hs : env.setInitialConfig ns with
      | none => exact absurd (Or.inr hs) hinit
      | some e0 =>
        rw [registerControllers_init_failure env cfg mgr ns e0 hc hs] at hmem
        simp at hmem

/-! ## C4: the registration names of the table -/

/-- C4 at the default configuration: the names computed for the fourteen
descriptors are empty for every bare struct literal, so the names of the
GatewayClass and Gateway descriptors (among others) coincide and the names are
not pairwise distinct. -/
theorem registrationNames_default_not_distinct :
    (controllerRegCfgs {} sampleNSName).map ctlrCfg.registrationName
      = ["", "", "", "user-service", "", "", "", "", "CustomResourceDefinition",
          "", "", "", "", ""] ∧
    ¬ ((controllerRegCfgs {} sampleNSName).map ctlrCfg.registrationName).Nodup := by
  decide

/-! ## C5: the experimental descriptors -/

/-- C5: without experimental features no descriptor of the table is for
BackendTLSPolicy, ConfigMap or TLSRoute; with them the table starts with the
fourteen base descriptors followed directly by the descriptors for
BackendTLSPolicy, ConfigMap and TLSRoute, in this order, and holds exactly one
descriptor of each of the three types. -/
theorem controllerRegCfgs_experimental (cfg : Config) (ns : NamespacedName) :
    (cfg.ExperimentalFeatures = false →
      ∀ d ∈ controllerRegCfgs cfg ns,
        d.objectType.goType ≠ .BackendTLSPolicy ∧ d.objectType.goType ≠ .ConfigMap ∧
          d.objectType.goType ≠ .TLSRoute) ∧
    (cfg.ExperimentalFeatures = true →
      (∃ rest, controllerRegCfgs cfg ns = baseRegCfgs cfg ++ gwExpFeatures ++ rest) ∧
      (baseRegCfgs cfg).length = 14 ∧
      gwExpFeatures.map (fun d => d.objectType.goType) = [.BackendTLSPolicy, .ConfigMap, .TLSRoute] ∧
      ((controllerRegCfgs cfg ns).map (fun d => d.objectType.goType)).count .BackendTLSPolicy = 1 ∧
      ((controllerRegCfgs cfg ns).map (fun d => d.objectType.goType)).count .ConfigMap = 1 ∧
      ((controllerRegCfgs cfg ns).map (fun d => d.objectType.goType)).count .TLSRoute = 1) := by
  constructor
  · intro hexp d hd
    have hmem : d.objectType.goType ∈ (controllerRegCfgs cfg ns).map (fun d => d.objectType.goType) :=
      List.mem_map.mpr ⟨d, hd, rfl⟩
    rw [controllerRegCfgs_goTypes] at hmem
    by_cases h2 : cfg.ConfigName = "" <;> by_cases h3 : cfg.SnippetsFilters = true <;>
      simp only [hexp, h2, h3, ne_eq, not_true_eq_false, not_false_eq_true, if_true, if_false,
        Bool.false_eq_true] at hmem <;>
      revert hmem <;> generalize d.objectType.goType = t <;> revert t <;> decide
  · intro hexp
    refine ⟨⟨_, by rw [controllerRegCfgs_eq, if_pos hexp, List.append_assoc]⟩, rfl, rfl, ?_⟩
    rw [controllerRegCfgs_goTypes]
    by_cases h2 : cfg.ConfigName = "" <;> by_cases h3 : cfg.SnippetsFilters = true <;>
      simp only [hexp, h2, h3, ne_eq, not_true_eq_false, not_false_eq_true, if_true, if_false,
        Bool.false_eq_true] <;>
      decide

/-! ## C6: the control-resource descriptor -/

/-- C6: the table holds a descriptor for NginxGateway exactly when the
configuration name is not empty; it then holds exactly one, and any such
descriptor carries the single-resource filter for the control resource
followed by the generation-changed filter. -/
theorem controllerRegCfgs_nginxGateway (cfg : Config) (ns : NamespacedName) :
    ((∃ d ∈ controllerRegCfgs cfg ns, d.objectType.goType = .NginxGateway)
        ↔ cfg.ConfigName ≠ "") ∧
      ((controllerRegCfgs cfg ns).map (fun d => d.objectType.goType)).count .NginxGateway
        = (if cfg.ConfigName ≠ "" then 1 else 0) ∧
      (∀ d ∈ controllerRegCfgs cfg ns, d.objectType.goType = .NginxGateway →
        d.options = [.WithNamespacedNameFilter (.CreateSingleResourceFilter ns),
                     .WithK8sPredicate .GenerationChangedPredicate]) := by
  refine ⟨?_, ?_, ?_⟩
  · have hiff : (∃ d ∈ controllerRegCfgs cfg ns, d.objectType.goType = .NginxGateway)
        ↔ GoType.NginxGateway ∈ (controllerRegCfgs cfg ns).map (fun d => d.objectType.goType) := by
      rw [List.mem_map]
    rw [hiff, controllerRegCfgs_goTypes]
    by_cases h1 : cfg.ExperimentalFeatures = true <;> by_cases h2 : cfg.ConfigName = "" <;>
      by_cases h3 : cfg.SnippetsFilters = true <;>
      simp only [h1, h2, h3, ne_eq, not_true_eq_false, not_false_eq_true, if_true, if_false,
        Bool.false_eq_true] <;>
      decide
  · rw [controllerRegCfgs_goTypes]
    by_cases h1 : cfg.ExperimentalFeatures = true <;> by_cases h2 : cfg.ConfigName = "" <;>
      by_cases h3 : cfg.SnippetsFilters = true <;>
      simp only [h1, h2, h3, ne_eq, not_true_eq_false, not_false_eq_true, if_true, if_false,
        Bool.false_eq_true] <;>
      decide
  · intro d hd hty
    rw [controllerRegCfgs_eq] at hd
    simp only [List.mem_append] at hd
    rcases hd with ((hd | hd) | hd) | hd
    · simp only [baseRegCfgs, List.mem_cons, List.mem_singleton, List.not_mem_nil, or_false] at hd
      rcases hd with h | h | h | h | h | h | h | h | h | h | h | h | h | h <;>
        (subst h; cases hty)
    · split at hd
      · simp only [gwExpFeatures, List.mem_cons, List.mem_singleton, List.not_mem_nil,
          or_false] at hd
        rcases hd with h | h | h <;> (subst h; cases hty)
      · cases hd
    · split at hd
      · simp only [List.mem_singleton] at hd
        subst hd
        rfl
      · cases hd
    · split at hd
      · simp only [List.mem_singleton] at hd
        subst hd
        cases hty
      · cases hd

/-! ## C7: the initial configuration read -/

/-- C7: with a configuration name set, the initial read is the first call of
the run and the only read among its calls, so it happens once and before any
`controller.Register` call; if it fails with `e` the run makes no other call
and returns an error that unwraps to `e` and whose message is the fixed text,
a colon and the message of `e`. Without a configuration name no read is made. -/
theorem registerControllers_initial_read (env : Env) (cfg : Config) (mgr : Manager)
    (ns : NamespacedName) :
    (registerControllers env cfg mgr ns).calls.filter Call.isSetInitialConfig
        = (if cfg.ConfigName ≠ "" then [Call.setInitialConfig ns (env.setInitialConfig ns)]
           else []) ∧
      (cfg.ConfigName ≠ "" →
        (registerControllers env cfg mgr ns).calls.head?
          = some (Call.setInitialConfig ns (env.setInitialConfig ns))) ∧
      (∀ e, cfg.ConfigName ≠ "" → env.setInitialConfig ns = some e →
        (registerControllers env cfg mgr ns).calls = [Call.setInitialConfig ns (some e)] ∧
        registerArgs (registerControllers env cfg mgr ns).calls = [] ∧
        (registerControllers env cfg mgr ns).mgr = mgr ∧
        ∃ err, (registerControllers env cfg mgr ns).err = some err ∧ err.Unwrap = some e ∧
          err.Error = "error setting initial control plane configuration" ++ ": " ++ e.Error) := by
  have hfail : ∀ e, cfg.ConfigName ≠ "" → env.setInitialConfig ns = some e →
      registerControllers env cfg mgr ns
        = { err := some (Errorf "error setting initial control plane configuration" e),
            mgr := mgr, calls := [Call.setInitialConfig ns (some e)] } :=
    fun e hc hs => registerControllers_init_failure env cfg mgr ns e hc hs
  refine ⟨?_, ?_, ?_⟩
  · by_cases hinit : cfg.ConfigName = "" ∨ env.setInitialConfig ns = none
    · rw [registerControllers_eq_loop env cfg mgr ns hinit,
        (registerLoop_calls_filter env _ mgr _).1]
      unfold initialCalls
      by_cases hc : cfg.ConfigName = "" <;> simp [hc, Call.isSetInitialConfig]
    · have hc : cfg.ConfigName ≠ "" := fun h => hinit (Or.inl h)
      cases hs : env.setInitialConfig ns with
      | none => exact absurd (Or.inr hs) hinit
      | some e0 =>
        rw [hfail e0 hc hs]
        simp [hc, Call.isSetInitialConfig]
  · intro hc
    cases hs : env.setInitialConfig ns with
    | none =>
      rw [registerControllers_eq_loop env cfg mgr ns (Or.inr hs)]
      obtain ⟨more, hmore⟩ := (registerLoop_calls_filter env (controllerRegCfgs cfg ns) mgr
        (initialCalls env cfg ns)).2
      rw [hmore]
      simp [initialCalls, hc, hs]
    | some e0 =>
      rw [hfail e0 hc hs]
      rfl
  · intro e hc hs
    rw [hfail e hc hs]
    exact ⟨rfl, rfl, rfl, _, rfl, rfl, rfl⟩

/-! ## C8: the name passed to the registration call -/

/-- C8: every `controller.Register` call of a run is made for a descriptor of
the table, with its object and options, and the name passed is the explicit
name of the descriptor when that is not empty and otherwise the kind of the
group-version-kind of its object. -/
theorem registerControllers_register_name (env : Env) (cfg : Config) (mgr : Manager)
    (ns : NamespacedName) (w : Watch) (r : Option GoError) :
    Call.Register w r ∈ (registerControllers env cfg mgr ns).calls →
      ∃ d ∈ controllerRegCfgs cfg ns, w.objectType = d.objectType ∧ w.options = d.options ∧
        (d.name ≠ "" → w.name = d.name) ∧
        (d.name = "" → w.name = d.objectType.GroupVersionKind.Kind) := by
  intro hmem
  obtain ⟨d, hd, hw⟩ := register_mem_calls env cfg mgr ns w r hmem
  subst hw
  refine ⟨d, hd, rfl, rfl, ?_, ?_⟩
  · intro hne
    simp [ctlrCfg.toWatch, ctlrCfg.registrationName, hne]
  · intro heq
    simp [ctlrCfg.toWatch, ctlrCfg.registrationName, heq]

/-- C8 at a concrete input: in the run of the default configuration in which
the Service watch is rejected, the rejected call carries the explicit name of
its descriptor. -/
theorem registerControllers_register_name_witness :
    ∃ d ∈ controllerRegCfgs {} sampleNSName,
      ObjectType.zero .Service = d.objectType ∧
      [ControllerOption.WithK8sPredicate .ServiceChangedPredicate] = d.options ∧
      (d.name ≠ "" → "user-service" = d.name) ∧
      (d.name = "" → "user-service" = d.objectType.GroupVersionKind.Kind) :=
  registerControllers_register_name (envRejecting "user-service") {} ⟨[]⟩ sampleNSName
    { objectType := .zero .Service, name := "user-service",
      options := [.WithK8sPredicate .ServiceChangedPredicate] }
    (some (.errorString "rejected")) (by decide)

/-! ## C9: the shape of the table -/

/-- C9, as stated, fails: two configurations with the same three flags and
different controller names build different tables, because the GatewayClass
descriptor carries the controller name in its filter. -/
theorem controllerRegCfgs_flags_counterexample :
    ({ GatewayCtlrName := "a" } : Config).ExperimentalFeatures
        = ({ GatewayCtlrName := "b" } : Config).ExperimentalFeatures ∧
      (({ GatewayCtlrName := "a" } : Config).ConfigName == "")
        = (({ GatewayCtlrName := "b" } : Config).ConfigName == "") ∧
      ({ GatewayCtlrName := "a" } : Config).SnippetsFilters
        = ({ GatewayCtlrName := "b" } : Config).SnippetsFilters ∧
      controllerRegCfgs { GatewayCtlrName := "a" } sampleNSName
        ≠ controllerRegCfgs { GatewayCtlrName := "b" } sampleNSName ∧
      baseRegCfgs { GatewayCtlrName := "a" } ≠ baseRegCfgs { GatewayCtlrName := "b" } := by
  decide

/-- C9, amended: the table is the fourteen base descriptors (GatewayClass
first, UpstreamSettingsPolicy last), then the experimental descriptors when
enabled, then the control-resource descriptor when a configuration name is
set, then the snippets descriptor when enabled; its length is 14 plus 3, 1 and
1 for the respective extensions. The object types and explicit names of its
descriptors depend only on the three flags, and the table itself only on the
three flags, the controller name and the name of the control resource. The
base descriptors are the same under every configuration except for the
controller name inside the filter of the first one, the GatewayClass
descriptor: all but the first never change, and the whole base table is fixed
by the controller name alone. -/
theorem controllerRegCfgs_shape (cfg : Config) (ns : NamespacedName) :
    controllerRegCfgs cfg ns
        = baseRegCfgs cfg ++ (if cfg.ExperimentalFeatures = true then gwExpFeatures else [])
            ++ (if cfg.ConfigName ≠ "" then [nginxGatewayRegCfg ns] else [])
            ++ (if cfg.SnippetsFilters = true then [snippetsFilterRegCfg] else []) ∧
      (baseRegCfgs cfg).map (fun d => d.objectType.goType)
        = [.GatewayClass, .Gateway, .HTTPRoute, .Service, .Secret, .EndpointSlice, .Namespace,
            .ReferenceGrant, .CustomResourceDefinition, .NginxProxy, .GRPCRoute,
            .ClientSettingsPolicy, .ObservabilityPolicy, .UpstreamSettingsPolicy] ∧
      (controllerRegCfgs cfg ns).length
        = 14 + 3 * (if cfg.ExperimentalFeatures = true then 1 else 0)
            + (if cfg.ConfigName ≠ "" then 1 else 0)
            + (if cfg.SnippetsFilters = true then 1 else 0) ∧
      (∀ (cfg2 : Config) (ns2 : NamespacedName),
        cfg2.ExperimentalFeatures = cfg.ExperimentalFeatures →
        (cfg2.ConfigName == "") = (cfg.ConfigName == "") →
        cfg2.SnippetsFilters = cfg.SnippetsFilters →
        (controllerRegCfgs cfg2 ns2).map (fun d => (d.objectType, d.name))
          = (controllerRegCfgs cfg ns).map (fun d => (d.objectType, d.name)) ∧
        (cfg2.GatewayCtlrName = cfg.GatewayCtlrName → ns2 = ns →
          controllerRegCfgs cfg2 ns2 = controllerRegCfgs cfg ns)) ∧
      (baseRegCfgs cfg).head?
        = some { objectType := .zero .GatewayClass,
                 options := [.WithK8sPredicate
                   (.And .GenerationChangedPredicate
                     (.GatewayClassPredicate cfg.GatewayCtlrName))] } ∧
      (∀ cfg2 : Config, (baseRegCfgs cfg2).drop 1 = (baseRegCfgs cfg).drop 1) ∧
      (∀ cfg2 : Config, cfg2.GatewayCtlrName = cfg.GatewayCtlrName →
        baseRegCfgs cfg2 = baseRegCfgs cfg) := by
  refine ⟨controllerRegCfgs_eq cfg ns, rfl, ?_, ?_, rfl, fun _ => rfl,
    fun cfg2 hg => by simp [baseRegCfgs, hg]⟩
  · rw [controllerRegCfgs_eq]
    by_cases h1 : cfg.ExperimentalFeatures = true <;> by_cases h2 : cfg.ConfigName = "" <;>
      by_cases h3 : cfg.SnippetsFilters = true <;>
      simp [h1, h2, h3, baseRegCfgs, gwExpFeatures]
  · intro cfg2 ns2 he hc hs
    have hc2 : cfg2.ConfigName ≠ "" ↔ cfg.ConfigName ≠ "" := by
      have h := congrArg (fun b => b = true) hc
      simp only [beq_iff_eq] at h
      rw [ne_eq, ne_eq, h]
    constructor
    · rw [controllerRegCfgs_eq, controllerRegCfgs_eq, he, hs]
      by_cases h2 : cfg.ConfigName ≠ ""
      · rw [if_pos h2, if_pos (hc2.mpr h2)]
        simp [baseRegCfgs, nginxGatewayRegCfg]
      · rw [if_neg h2, if_neg (fun h => h2 (hc2.mp h))]
        simp [baseRegCfgs]
    · intro hg hns
      rw [controllerRegCfgs_eq, controllerRegCfgs_eq, he, hs, hns]
      have hb : baseRegCfgs cfg2 = baseRegCfgs cfg := by
        simp [baseRegCfgs, hg]
      rw [hb]
      by_cases h2 : cfg.ConfigName ≠ ""
      · rw [if_pos h2, if_pos (hc2.mpr h2)]
      · rw [if_neg h2, if_neg (fun h => h2 (hc2.mp h))]

/-! ## C10: the filters of the descriptors -/

/-- C10, as stated, fails: with experimental features enabled the table holds
the ConfigMap descriptor, which carries no option at all and so no filter. -/
theorem controllerRegCfgs_configMap_counterexample :
    ∃ d ∈ controllerRegCfgs { ExperimentalFeatures := true } sampleNSName,
      d.objectType.goType = .ConfigMap ∧ d.options = [] ∧
        d.options.any ControllerOption.isK8sPredicate = false := by
  decide

/-- C10, amended: every descriptor of the table other than the one for
ConfigMap carries a `WithK8sPredicate` option; the ConfigMap descriptor, which
is in the table exactly when experimental features are enabled, carries no
option. -/
theorem controllerRegCfgs_predicates (cfg : Config) (ns : NamespacedName) :
    (∀ d ∈ controllerRegCfgs cfg ns, d.objectType.goType ≠ .ConfigMap →
        d.options.any ControllerOption.isK8sPredicate = true) ∧
      (∀ d ∈ controllerRegCfgs cfg ns, d.objectType.goType = .ConfigMap → d.options = []) ∧
      ((∃ d ∈ controllerRegCfgs cfg ns, d.objectType.goType = .ConfigMap)
        ↔ cfg.ExperimentalFeatures = true) := by
  have hsplit : ∀ d ∈ controllerRegCfgs cfg ns,
      (d.objectType.goType ≠ .ConfigMap ∧ d.options.any ControllerOption.isK8sPredicate = true) ∨
      (d.objectType.goType = .ConfigMap ∧ d.options = []) := by
    intro d hd
    rw [controllerRegCfgs_eq] at hd
    simp only [List.mem_append] at hd
    rcases hd with ((hd | hd) | hd) | hd
    · simp only [baseRegCfgs, List.mem_cons, List.mem_singleton, List.not_mem_nil, or_false] at hd
      rcases hd with h | h | h | h | h | h | h | h | h | h | h | h | h | h <;>
        (subst h; left; exact ⟨by simp [ObjectType.zero, crdWithGVK, ObjectType.SetGroupVersionKind, nginxGatewayRegCfg,
          snippetsFilterRegCfg], rfl⟩)
    · split at hd
      · simp only [gwExpFeatures, List.mem_cons, List.mem_singleton, List.not_mem_nil,
          or_false] at hd
        rcases hd with h | h | h
        · subst h; left; exact ⟨by simp [ObjectType.zero, crdWithGVK, ObjectType.SetGroupVersionKind, nginxGatewayRegCfg,
          snippetsFilterRegCfg], rfl⟩
        · subst h; right; exact ⟨rfl, rfl⟩
        · subst h; left; exact ⟨by simp [ObjectType.zero, crdWithGVK, ObjectType.SetGroupVersionKind, nginxGatewayRegCfg,
          snippetsFilterRegCfg], rfl⟩
      · cases hd
    · split at hd
      · simp only [List.mem_singleton] at hd
        subst hd; left; exact ⟨by simp [ObjectType.zero, crdWithGVK, ObjectType.SetGroupVersionKind, nginxGatewayRegCfg,
          snippetsFilterRegCfg], rfl⟩
      · cases hd
    · split at hd
      · simp only [List.mem_singleton] at hd
        subst hd; left; exact ⟨by simp [ObjectType.zero, crdWithGVK, ObjectType.SetGroupVersionKind, nginxGatewayRegCfg,
          snippetsFilterRegCfg], rfl⟩
      · cases hd
  refine ⟨?_, ?_, ?_⟩
  · intro d hd hne
    rcases hsplit d hd with h | h
    · exact h.2
    · exact absurd h.1 hne
  · intro d hd heq
    rcases hsplit d hd with h | h
    · exact absurd heq h.1
    · exact h.2
  · have hiff : (∃ d ∈ controllerRegCfgs cfg ns, d.objectType.goType = .ConfigMap)
        ↔ GoType.ConfigMap ∈ (controllerRegCfgs cfg ns).map (fun d => d.objectType.goType) := by
      rw [List.mem_map]
    rw [hiff, controllerRegCfgs_goTypes]
    by_cases h1 : cfg.ExperimentalFeatures = true <;> by_cases h2 : cfg.ConfigName = "" <;>
      by_cases h3 : cfg.SnippetsFilters = true <;>
      simp only [h1, h2, h3, ne_eq, not_true_eq_false, not_false_eq_true, if_true, if_false,
        Bool.false_eq_true] <;>
      decide

/-! ## The reconciler, by cases -/

/-- A successful HTTPRoute read ends the run after the HTTPRoute list. -/
theorem Reconcile_of_httpRoute (r : MyappReconciler) (nf : GoError → Bool) (req : Request)
    (h1 : r.Get req.NamespacedName .HTTPRoute = none) :
    r.Reconcile nf req
      = { result := {}, err := none,
          calls := [(.Get req.NamespacedName .HTTPRoute, none),
                    (.List .HTTPRouteList req.Namespace, r.List .HTTPRouteList req.Namespace)] } := by
  simp [MyappReconciler.Reconcile, h1]

/-- A failed HTTPRoute read followed by a successful Service read ends the run
after the Service list. -/
theorem Reconcile_of_service (r : MyappReconciler) (nf : GoError → Bool) (req : Request)
    (e1 : GoError) (h1 : r.Get req.NamespacedName .HTTPRoute = some e1)
    (h2 : r.Get req.NamespacedName .Service = none) :
    r.Reconcile nf req
      = { result := {}, err := none,
          calls := [(.Get req.NamespacedName .HTTPRoute, some e1),
                    (.List .HTTPRouteList req.Namespace, r.List .HTTPRouteList req.Namespace),
                    (.Get req.NamespacedName .Service, none),
                    (.List .ServiceList req.Namespace, r.List .ServiceList req.Namespace)] } := by
  simp [MyappReconciler.Reconcile, h1, h2]

/-- After two failed reads the run ends with the Myapp read, whose error is
returned unless it is absent or a not-found error. -/
theorem Reconcile_of_myapp (r : MyappReconciler) (nf : GoError → Bool) (req : Request)
    (e1 e2 : GoError) (h1 : r.Get req.NamespacedName .HTTPRoute = some e1)
    (h2 : r.Get req.NamespacedName .Service = some e2) :
    r.Reconcile nf req
      = { result := {}, err := IgnoreNotFound nf (r.Get req.NamespacedName .Myapp),
          calls := [(.Get req.NamespacedName .HTTPRoute, some e1),
                    (.List .HTTPRouteList req.Namespace, r.List .HTTPRouteList req.Namespace),
                    (.Get req.NamespacedName .Service, some e2),
                    (.List .ServiceList req.Namespace, r.List .ServiceList req.Namespace),
                    (.Get req.NamespacedName .Myapp, r.Get req.NamespacedName .Myapp)] } := by
  cases h3 : r.Get req.NamespacedName .Myapp with
  | none => simp [MyappReconciler.Reconcile, h1, h2, h3, IgnoreNotFound]
  | some e3 =>
    by_cases hnf : nf e3 = true
    · simp [MyappReconciler.Reconcile, h1, h2, h3, IgnoreNotFound, hnf]
    · simp [MyappReconciler.Reconcile, h1, h2, h3, IgnoreNotFound, hnf]

/-- On the sample cluster with a Service at the key the run stops after the
Service list, although both lists fail. -/
theorem Reconcile_sample_service :
    sampleReconciler.Reconcile sampleIsNotFound sampleRequest
      = { result := {}, err := none,
          calls := [(.Get sampleRequest.NamespacedName .HTTPRoute,
                      some (.errorString "no kind is registered")),
                    (.List .HTTPRouteList "default", some (.errorString "list failed")),
                    (.Get sampleRequest.NamespacedName .Service, none),
                    (.List .ServiceList "default", some (.errorString "list failed"))] } := by
  decide

/-- On the sample cluster where every read fails, a Myapp error that is not a
not-found error is returned and a not-found error is not. -/
theorem Reconcile_sample_failure :
    ((failingReconciler (.errorString "boom")).Reconcile sampleIsNotFound sampleRequest).err
        = some (.errorString "boom") ∧
      ((failingReconciler (.errorString "not found")).Reconcile sampleIsNotFound
        sampleRequest).err = none := by
  decide

/-! ## C11: the error returned by the reconciler -/

/-- C11: `Reconcile` returns an error exactly when the reads of the key as
HTTPRoute, as Service and as Myapp all fail and the Myapp error is not a
not-found error, and the error returned is then that Myapp error; a not-found
Myapp error always gives nil, and the returned error does not depend on what
the `List` calls return. -/
theorem Reconcile_error (r : MyappReconciler) (nf : GoError → Bool) (req : Request) :
    ((r.Reconcile nf req).err ≠ none ↔
        ∃ e1 e2 e3, r.Get req.NamespacedName .HTTPRoute = some e1 ∧
          r.Get req.NamespacedName .Service = some e2 ∧
          r.Get req.NamespacedName .Myapp = some e3 ∧ nf e3 = false) ∧
      (∀ e1 e2 e3, r.Get req.NamespacedName .HTTPRoute = some e1 →
        r.Get req.NamespacedName .Service = some e2 →
        r.Get req.NamespacedName .Myapp = some e3 → nf e3 = false →
        (r.Reconcile nf req).err = some e3) ∧
      (∀ e3, r.Get req.NamespacedName .Myapp = some e3 → nf e3 = true →
        (r.Reconcile nf req).err = none) ∧
      (∀ r2 : MyappReconciler, r2.Get = r.Get →
        (r2.Reconcile nf req).err = (r.Reconcile nf req).err) := by
  have hmain : (r.Reconcile nf req).err
      = match r.Get req.NamespacedName .HTTPRoute, r.Get req.NamespacedName .Service with
        | some _, some _ => IgnoreNotFound nf (r.Get req.NamespacedName .Myapp)
        | _, _ => none := by
    cases h1 : r.Get req.NamespacedName .HTTPRoute with
    | none => rw [Reconcile_of_httpRoute r nf req h1]
    | some e1 =>
      cases h2 : r.Get req.NamespacedName .Service with
      | none => rw [Reconcile_of_service r nf req e1 h1 h2]
      | some e2 => rw [Reconcile_of_myapp r nf req e1 e2 h1 h2]
  refine ⟨?_, ?_, ?_, ?_⟩
  · rw [hmain]
    cases h1 : r.Get req.NamespacedName .HTTPRoute with
    | none => simp
    | some e1 =>
      cases h2 : r.Get req.NamespacedName .Service with
      | none => simp
      | some e2 =>
        cases h3 : r.Get req.NamespacedName .Myapp with
        | none => simp [IgnoreNotFound]
        | some e3 =>
          cases hnf : nf e3 <;> simp [IgnoreNotFound, hnf]
  · intro e1 e2 e3 h1 h2 h3 hnf
    rw [hmain, h1, h2, h3]
    simp [IgnoreNotFound, hnf]
  · intro e3 h3 hnf
    rw [hmain, h3]
    cases r.Get req.NamespacedName .HTTPRoute <;> cases r.Get req.NamespacedName .Service <;>
      simp [IgnoreNotFound, hnf]
  · intro r2 hget
    have hmain2 : (r2.Reconcile nf req).err
        = match r2.Get req.NamespacedName .HTTPRoute, r2.Get req.NamespacedName .Service with
          | some _, some _ => IgnoreNotFound nf (r2.Get req.NamespacedName .Myapp)
          | _, _ => none := by
      cases h1 : r2.Get req.NamespacedName .HTTPRoute with
      | none => rw [Reconcile_of_httpRoute r2 nf req h1]
      | some e1 =>
        cases h2 : r2.Get req.NamespacedName .Service with
        | none => rw [Reconcile_of_service r2 nf req e1 h1 h2]
        | some e2 => rw [Reconcile_of_myapp r2 nf req e1 e2 h1 h2]
    rw [hmain, hmain2, hget]

/-! ## C12: the result returned by the reconciler -/

/-- C12: whatever the client returns, the result of `Reconcile` is the zero
`ctrl.Result`: no requeue and a zero requeue delay. -/
theorem Reconcile_result (r : MyappReconciler) (nf : GoError → Bool) (req : Request) :
    (r.Reconcile nf req).result = {} ∧ (r.Reconcile nf req).result.RequeueAfter = 0 ∧
      (r.Reconcile nf req).result.Requeue = false := by
  have h : (r.Reconcile nf req).result = {} := by
    cases h1 : r.Get req.NamespacedName .HTTPRoute with
    | none => rw [Reconcile_of_httpRoute r nf req h1]
    | some e1 =>
      cases h2 : r.Get req.NamespacedName .Service with
      | none => rw [Reconcile_of_service r nf req e1 h1 h2]
      | some e2 => rw [Reconcile_of_myapp r nf req e1 e2 h1 h2]
  rw [h]
  exact ⟨rfl, rfl, rfl⟩

/-! ## C13: the generation-changed filter -/

/-- C13: the generation-changed filter is true exactly when the previous
snapshot is absent or its generation differs from the current one; equal
inputs give equal results; and an update that keeps the generation, whatever
else it changes, is filtered out. -/
theorem GenerationChanged_spec (previous : Option Snapshot) (current : Snapshot) :
    (GenerationChanged previous current = true ↔
        previous = none ∨ ∃ p, previous = some p ∧ current.Generation ≠ p.Generation) ∧
      (∀ previous2 current2, previous2 = previous → current2 = current →
        GenerationChanged previous2 current2 = GenerationChanged previous current) ∧
      (∀ p, previous = some p → current.Generation = p.Generation →
        GenerationChanged previous current = false) := by
  refine ⟨?_, ?_, ?_⟩
  · cases previous with
    | none => simp [GenerationChanged]
    | some p => simp [GenerationChanged]
  · intro previous2 current2 hp hc
    rw [hp, hc]
  · intro p hp hgen
    subst hp
    simp [GenerationChanged, hgen]

/-! ## C14: the order of the probes -/

/-- C14: the reads of a run are an initial part of the sequence HTTPRoute,
Service, Myapp for the key of the request. When the HTTPRoute read succeeds the
run returns the zero result and nil after that read and the HTTPRoute list,
with no read of Service or Myapp, whatever a Service read would return; when it
fails and the Service read succeeds the run returns the zero result and nil
after the Service list, with no read of Myapp. Neither depends on what the
`List` calls return. -/
theorem Reconcile_probe_order (r : MyappReconciler) (nf : GoError → Bool) (req : Request) :
    (((r.Reconcile nf req).calls.map Prod.fst).filter ClientCall.isGet
        <+: [.Get req.NamespacedName .HTTPRoute, .Get req.NamespacedName .Service,
             .Get req.NamespacedName .Myapp]) ∧
      (r.Get req.NamespacedName .HTTPRoute = none →
        (r.Reconcile nf req).result = {} ∧ (r.Reconcile nf req).err = none ∧
        (r.Reconcile nf req).calls.map Prod.fst
          = [.Get req.NamespacedName .HTTPRoute, .List .HTTPRouteList req.Namespace]) ∧
      (r.Get req.NamespacedName .HTTPRoute ≠ none → r.Get req.NamespacedName .Service = none →
        (r.Reconcile nf req).result = {} ∧ (r.Reconcile nf req).err = none ∧
        (r.Reconcile nf req).calls.map Prod.fst
          = [.Get req.NamespacedName .HTTPRoute, .List .HTTPRouteList req.Namespace,
             .Get req.NamespacedName .Service, .List .ServiceList req.Namespace]) := by
  refine ⟨?_, ?_, ?_⟩
  · cases h1 : r.Get req.NamespacedName .HTTPRoute with
    | none =>
      rw [Reconcile_of_httpRoute r nf req h1]
      exact ⟨[_, _], rfl⟩
    | some e1 =>
      cases h2 : r.Get req.NamespacedName .Service with
      | none =>
        rw [Reconcile_of_service r nf req e1 h1 h2]
        exact ⟨[_], rfl⟩
      | some e2 =>
        rw [Reconcile_of_myapp r nf req e1 e2 h1 h2]
        exact ⟨[], rfl⟩
  · intro h1
    rw [Reconcile_of_httpRoute r nf req h1]
    exact ⟨rfl, rfl, rfl⟩
  · intro h1 h2
    cases h1e : r.Get req.NamespacedName .HTTPRoute with
    | none => exact absurd h1e h1
    | some e1 =>
      rw [Reconcile_of_service r nf req e1 h1e h2]
      exact ⟨rfl, rfl, rfl⟩

/-! ## C15: the reconciler only reads -/

/-- C15: every client call of a run is a `Get` for the key of the request or a
`List` in its namespace; there are at most three of the former and two of the
latter; and, reads leaving the object store as it is, the store after the run
is the store before it, whatever the writes of the client would do. -/
theorem Reconcile_read_only (r : MyappReconciler) (nf : GoError → Bool) (req : Request) :
    (∀ c ∈ (r.Reconcile nf req).calls.map Prod.fst,
        (∃ obj, c = .Get req.NamespacedName obj) ∨ (∃ l, c = .List l req.Namespace)) ∧
      (((r.Reconcile nf req).calls.map Prod.fst).filter ClientCall.isGet).length ≤ 3 ∧
      (((r.Reconcile nf req).calls.map Prod.fst).filter ClientCall.isList).length ≤ 2 ∧
      (∀ (Store : Type) (write : ClientCall → Store → Store) (store : Store),
        ((r.Reconcile nf req).calls.map Prod.fst).foldl
          (fun s c => c.effect write s) store = store) := by
  cases h1 : r.Get req.NamespacedName .HTTPRoute with
  | none =>
    rw [Reconcile_of_httpRoute r nf req h1]
    refine ⟨?_, by simp [ClientCall.isGet], by simp [ClientCall.isList], fun _ _ _ => rfl⟩
    intro c hc
    simp only [List.map_cons, List.map_nil, List.mem_cons, List.mem_singleton,
      List.not_mem_nil, or_false] at hc
    rcases hc with h | h <;> subst h
    · exact Or.inl ⟨_, rfl⟩
    · exact Or.inr ⟨_, rfl⟩
  | some e1 =>
    cases h2 : r.Get req.NamespacedName .Service with
    | none =>
      rw [Reconcile_of_service r nf req e1 h1 h2]
      refine ⟨?_, by simp [ClientCall.isGet], by simp [ClientCall.isList], fun _ _ _ => rfl⟩
      intro c hc
      simp only [List.map_cons, List.map_nil, List.mem_cons, List.mem_singleton,
        List.not_mem_nil, or_false] at hc
      rcases hc with h | h | h | h <;> subst h
      · exact Or.inl ⟨_, rfl⟩
      · exact Or.inr ⟨_, rfl⟩
      · exact Or.inl ⟨_, rfl⟩
      · exact Or.inr ⟨_, rfl⟩
    | some e2 =>
      rw [Reconcile_of_myapp r nf req e1 e2 h1 h2]
      refine ⟨?_, by simp [ClientCall.isGet], by simp [ClientCall.isList], fun _ _ _ => rfl⟩
      intro c hc
      simp only [List.map_cons, List.map_nil, List.mem_cons, List.mem_singleton,
        List.not_mem_nil, or_false] at hc
      rcases hc with h | h | h | h | h <;> subst h
      · exact Or.inl ⟨_, rfl⟩
      · exact Or.inr ⟨_, rfl⟩
      · exact Or.inl ⟨_, rfl⟩
      · exact Or.inr ⟨_, rfl⟩
      · exact Or.inl ⟨_, rfl⟩

end Kontroller
